import Mathlib

/-
Shallow embedding of src/core/execution.py from the options-wheel repository.

Prices and strikes are modelled as rationals (ℚ).  Python truthiness on
optional numeric fields (None and 0.0 are both falsy) is modelled by
Option ℚ together with the predicate truthy below.  Fallible external
calls (batch fetches, order submission) are modelled with Except, and a
caught ValueError from parse_option_symbol with Option.  The brokerage
client and the strategy helper functions (filter_underlying,
filter_options, score_options, select_options, Contract construction,
parse_option_symbol) are external collaborators of this repository; they
appear as opaque function fields of environment structures, while every
branch of execution.py itself is translated directly.
-/

namespace OptionsWheel

/-- Asset classes, from alpaca.trading.enums.AssetClass. -/
inductive AssetClass
  | us_equity
  | us_option
  | crypto
deriving DecidableEq

/-- Order side, from alpaca.trading.enums.OrderSide. -/
inductive OrderSide
  | buy
  | sell
deriving DecidableEq

/-- Order type, from alpaca.trading.enums.OrderType. -/
inductive OrderType
  | market
  | limit
deriving DecidableEq

/-- Time in force, from alpaca.trading.enums.TimeInForce. -/
inductive TimeInForce
  | day
  | gtc
deriving DecidableEq

/-- The latest quote carried by an option snapshot.  A field that is
absent or None in Python is modelled as none; a present numeric value x
as some x (some 0 and none are both falsy, matching Python truthiness). -/
structure LatestQuote where
  bid_price : Option ℚ
  ask_price : Option ℚ
deriving DecidableEq

/-- The latest trade carried by an option snapshot. -/
structure LatestTrade where
  price : ℚ
deriving DecidableEq

/-- An option snapshot as consumed by execution.py: the latest_quote and
latest_trade attributes, each possibly missing or None (both modelled as
none, since hasattr-and-truthiness is how the code probes them). -/
structure OptionSnapshot where
  latest_quote : Option LatestQuote
  latest_trade : Option LatestTrade
deriving DecidableEq

/-- Python truthiness of an optional numeric attribute: false for an
absent field, for None and for 0, true otherwise. -/
def truthy (v : Option ℚ) : Bool :=
  match v with
  | none => false
  | some x => decide (x ≠ 0)

/-- Python expression v or 0 on an optional numeric attribute: the value
when truthy, otherwise 0 (an absent field and a stored 0 both give 0). -/
def or_zero (v : Option ℚ) : ℚ :=
  v.getD 0

/-- Current-option-price resolution of manage_open_puts (execution.py
lines 149-159): if a latest_quote exists, use the bid/ask mid when both
are truthy and otherwise ask_price or 0; only when no quote exists fall
back to the latest trade price; with neither, no price (the position is
skipped). -/
def resolve_option_price (snap : OptionSnapshot) : Option ℚ :=
  match snap.latest_quote with
  | some q =>
    if truthy q.bid_price && truthy q.ask_price then
      some ((or_zero q.bid_price + or_zero q.ask_price) / 2)
    else
      some (or_zero q.ask_price)
  | none =>
    match snap.latest_trade with
    | some t => some t.price
    | none => none

/-- P&L percentage of manage_open_puts (execution.py lines 164-170):
(premium - price) / premium when the collected premium is positive,
else 0 (division-by-zero guard). -/
def pnl_pct_of (premium price : ℚ) : ℚ :=
  if 0 < premium then (premium - price) / premium else 0

/-- Closure reason tags used by manage_open_puts. -/
inductive Reason
  | profit_target
  | loss_limit
deriving DecidableEq

/-- Closure test of manage_open_puts (execution.py lines 174-191):
close iff the absolute P&L percentage reaches target_pct; the reason is
profit_target when the percentage itself reaches target_pct, else
loss_limit. -/
def closure_decision (target_pct pnl_percentage : ℚ) : Option Reason :=
  if |pnl_percentage| ≥ target_pct then
    some (if pnl_percentage ≥ target_pct then Reason.profit_target else Reason.loss_limit)
  else
    none

/-- An open brokerage position as consumed by manage_open_puts. -/
structure Position where
  symbol : String
  qty : Int
  avg_entry_price : ℚ
  asset_class : AssetClass
deriving DecidableEq

/-- The per-position detail record built by manage_open_puts
(execution.py lines 97-103); the symbol field is the back-referenced
position's symbol, which is also the dictionary key. -/
structure PutDetail where
  underlying : String
  strike : ℚ
  qty : Nat
  avg_entry_price : ℚ
  symbol : String
deriving DecidableEq

/-- A stock latest-trade entry as returned by the bulk stock fetch. -/
structure StockTrade where
  price : ℚ
deriving DecidableEq

/-- Per-position evaluation of manage_open_puts (execution.py lines
129-191): skip when the underlying has no stock price, when the option
symbol has no snapshot, or when no option price resolves; otherwise
compute unrealized P&L and apply the closure test, returning the reason
and the unrealized P&L when the position is to be closed. -/
def evaluate_position (stock_prices : String → Option StockTrade)
    (option_snapshots : String → Option OptionSnapshot)
    (target_pct : ℚ) (option_symbol : String) (d : PutDetail) :
    Option (Reason × ℚ) :=
  match stock_prices d.underlying with
  | none => none
  | some _ =>
    match option_snapshots option_symbol with
    | none => none
    | some snap =>
      match resolve_option_price snap with
      | none => none
      | some current_option_price =>
        let unrealized_pnl := d.avg_entry_price - current_option_price
        match closure_decision target_pct (pnl_pct_of d.avg_entry_price current_option_price) with
        | some reason => some (reason, unrealized_pnl)
        | none => none

/-- A market order request as built by manage_open_puts (execution.py
lines 204-210): symbol, positive quantity, BUY side, MARKET type, DAY
time in force. -/
structure MarketOrder where
  symbol : String
  qty : Nat
  side : OrderSide
  order_type : OrderType
  time_in_force : TimeInForce
deriving DecidableEq

/-- The record appended to closed_positions on a successful close
(execution.py lines 215-223). -/
structure ClosedPositionRecord where
  symbol : String
  underlying : String
  strike : ℚ
  reason : Reason
  pnl : ℚ
  premium_collected : ℚ
  order_id : String
deriving DecidableEq

/-- The buy-to-close order built for one put detail. -/
def order_of (d : PutDetail) : MarketOrder :=
  { symbol := d.symbol
    qty := d.qty
    side := OrderSide.buy
    order_type := OrderType.market
    time_in_force := TimeInForce.day }

/-- The closed-position record built for one successful submission. -/
def record_of (d : PutDetail) (reason : Reason) (pnl : ℚ) (order_id : String) :
    ClosedPositionRecord :=
  { symbol := d.symbol
    underlying := d.underlying
    strike := d.strike
    reason := reason
    pnl := pnl
    premium_collected := d.avg_entry_price
    order_id := order_id }

/-- Python dict assignment d[k] = v on an insertion-ordered association
list: an existing key keeps its position and gets the new value, a new
key is appended at the end. -/
def dict_insert (l : List (String × PutDetail)) (k : String) (v : PutDetail) :
    List (String × PutDetail) :=
  if l.any (fun p => p.1 == k) then
    l.map (fun p => if p.1 == k then (k, v) else p)
  else
    l ++ [(k, v)]

/-- The position filter of manage_open_puts (execution.py line 80):
option asset class and negative quantity. -/
def short_option_positions (positions : List Position) : List Position :=
  positions.filter (fun p => decide (p.asset_class = AssetClass.us_option ∧ p.qty < 0))

/-- The parse-and-classify loop of manage_open_puts (execution.py lines
89-106): for each position whose symbol parses (a parse failure is a
caught ValueError, modelled as none) and whose option type is P, append
the underlying to the underlyings list and store the detail record under
the position's symbol; other positions are skipped. -/
def build_put_details (parse : String → Option (String × Char × ℚ))
    (put_positions : List Position) :
    List String × List (String × PutDetail) :=
  put_positions.foldl
    (fun acc position =>
      match parse position.symbol with
      | none => acc
      | some (underlying, option_type, strike_price) =>
        if option_type = 'P' then
          (acc.1 ++ [underlying],
           dict_insert acc.2 position.symbol
             { underlying := underlying
               strike := strike_price
               qty := position.qty.natAbs
               avg_entry_price := |position.avg_entry_price|
               symbol := position.symbol })
        else
          acc)
    ([], [])

/-- The evaluation loop of manage_open_puts (execution.py lines 127-191)
over the detail map, collecting (detail, reason, unrealized pnl) triples
for the positions that meet the closure condition, in iteration order. -/
def decide_closures (stock_prices : String → Option StockTrade)
    (option_snapshots : String → Option OptionSnapshot)
    (target_pct : ℚ) (put_details : List (String × PutDetail)) :
    List (PutDetail × Reason × ℚ) :=
  put_details.filterMap
    (fun sd =>
      (evaluate_position stock_prices option_snapshots target_pct sd.1 sd.2).map
        (fun rp => (sd.2, rp.1, rp.2)))

/-- The closing loop of manage_open_puts (execution.py lines 194-226):
for each closure decision build the buy-to-close market order and submit
it; a submission failure is caught and logged, dropping only that record;
a success appends a record carrying the broker order id.  The second
component lists every order submission attempted, in order. -/
def close_positions (submit : MarketOrder → Except Unit String) :
    List (PutDetail × Reason × ℚ) → List ClosedPositionRecord × List MarketOrder
  | [] => ([], [])
  | (d, reason, pnl) :: rest =>
    let o := order_of d
    let res := close_positions submit rest
    match submit o with
    | Except.ok order_id => (record_of d reason pnl order_id :: res.1, o :: res.2)
    | Except.error _ => (res.1, o :: res.2)

/-- The environment of one manage_open_puts invocation: the open
positions, the external symbol parser (none models a ValueError), the
two batch fetches (error models a raised exception caught at execution.py
lines 113-125), and the order-submission capability (error models a
raised exception caught at lines 199-226). -/
structure Env where
  positions : List Position
  parse : String → Option (String × Char × ℚ)
  stock_prices : Except Unit (String → Option StockTrade)
  option_snapshots : Except Unit (String → Option OptionSnapshot)
  submit_order : MarketOrder → Except Unit String

/-- manage_open_puts (execution.py lines 69-234).  The first component
is the Python return value: none for the early returns (no short option
positions, no position surviving parse-and-classify, a failed batch
fetch) and some of the closed-positions list otherwise.  The second
component lists the close-order submissions attempted. -/
def manage_open_puts (env : Env) (target_pct : ℚ) :
    Option (List ClosedPositionRecord) × List MarketOrder :=
  let put_positions := short_option_positions env.positions
  if put_positions.isEmpty then (none, [])
  else
    let ud := build_put_details env.parse put_positions
    if ud.1.isEmpty then (none, [])
    else
      match env.stock_prices with
      | Except.error _ => (none, [])
      | Except.ok stock_prices =>
        match env.option_snapshots with
        | Except.error _ => (none, [])
        | Except.ok option_snapshots =>
          let cp := close_positions env.submit_order
            (decide_closures stock_prices option_snapshots target_pct ud.2)
          (some cp.1, cp.2)

/-- An option contract as returned by the contract catalog fetch; only
its symbol is consumed directly by execution.py. -/
structure RawOptionContract where
  symbol : String
deriving DecidableEq

/-- A Contract (models.contract) as consumed by execution.py: the fields
it reads are symbol and strike. -/
structure Contract where
  symbol : String
  strike : ℚ
deriving DecidableEq

/-- The error raised by sell_puts when strat_logger is None: line 20 of
execution.py calls strat_logger.set_filtered_symbols unconditionally, an
AttributeError on None. -/
inductive SellError
  | attributeErrorNoneLogger
deriving DecidableEq

/-- External collaborators of sell_puts: the strategy helper functions
and the brokerage client calls it makes, as opaque functions. -/
structure SellEnv where
  filter_underlying : List String → ℚ → List String
  get_options_contracts : List String → List RawOptionContract
  get_option_snapshot : List String → String → Option OptionSnapshot
  from_contract_snapshot : RawOptionContract → OptionSnapshot → Contract
  filter_options : List Contract → List Contract
  score_options : List Contract → List ℚ
  select_options : List Contract → List ℚ → List Contract

/-- The budget walk of sell_puts (execution.py lines 34-41): decrement
the running buying power by 100 times the strike; once it would go
negative, stop — that contract and every later one is not sold. -/
def budget_walk : ℚ → List Contract → List Contract
  | _, [] => []
  | buying_power, p :: rest =>
    if buying_power - 100 * p.strike < 0 then []
    else p :: budget_walk (buying_power - 100 * p.strike) rest

/-- The number of contracts the budget walk sells. -/
def sold_count : ℚ → List Contract → Nat
  | _, [] => 0
  | buying_power, p :: rest =>
    if buying_power - 100 * p.strike < 0 then 0
    else sold_count (buying_power - 100 * p.strike) rest + 1

/-- sell_puts (execution.py lines 11-43).  Except.ok carries the list of
contracts sold (in order); Except.error models the AttributeError raised
at line 20 when strat_logger is None, since that call is not guarded by
the if strat_logger check used everywhere else. -/
def sell_puts (env : SellEnv) (allowed_symbols : List String) (buying_power : ℚ)
    (strat_logger : Option Unit) : Except SellError (List Contract) :=
  if allowed_symbols = [] ∨ buying_power ≤ 0 then Except.ok []
  else
    let filtered_symbols := env.filter_underlying allowed_symbols buying_power
    match strat_logger with
    | none => Except.error SellError.attributeErrorNoneLogger
    | some _ =>
      if filtered_symbols.length = 0 then Except.ok []
      else
        let option_contracts := env.get_options_contracts filtered_symbols
        let snapshots := env.get_option_snapshot (option_contracts.map RawOptionContract.symbol)
        let put_options := env.filter_options
          (option_contracts.filterMap
            (fun c => (snapshots c.symbol).map (env.from_contract_snapshot c)))
        if put_options = [] then Except.ok []
        else
          let scores := env.score_options put_options
          let selected := env.select_options put_options scores
          Except.ok (budget_walk buying_power selected)

/-- np.argmax on a list of scores, per numpy's documented contract: the
index of the first occurrence of the maximum value (numpy is an external
collaborator; only this contract of it is used, at execution.py line 61). -/
def np_argmax : List ℚ → Nat
  | [] => 0
  | x :: xs =>
    match xs with
    | [] => 0
    | _ :: _ => if xs.getD (np_argmax xs) 0 ≤ x then 0 else np_argmax xs + 1

/-- Result of a sell_calls invocation. -/
inductive SellCallsResult
  | insufficientShares
  | noSale
  | sold (contract : Contract)
deriving DecidableEq

/-- Gateway (brokerage client) calls made by sell_calls, in order. -/
inductive GatewayCall
  | getOptionsContracts (symbol : String)
  | marketSell (symbol : String)
deriving DecidableEq

/-- External collaborators of sell_calls: contract fetch plus Contract
construction collapsed into get_calls, and the strategy helpers. -/
structure CallEnv where
  get_calls : String → List Contract
  filter_options : List Contract → ℚ → List Contract
  score_options : List Contract → List ℚ

/-- sell_calls (execution.py lines 45-67): raise a ValueError when fewer
than 100 shares are held, before any client call; otherwise fetch and
filter call contracts, and sell exactly the argmax-scored one when any
qualify.  The second component lists the gateway calls made, in order. -/
def sell_calls (env : CallEnv) (symbol : String) (purchase_price : ℚ)
    (stock_qty : Int) (_strat_logger : Option Unit) :
    SellCallsResult × List GatewayCall :=
  if stock_qty < 100 then (SellCallsResult.insufficientShares, [])
  else
    let call_options := env.filter_options (env.get_calls symbol) purchase_price
    if call_options = [] then (SellCallsResult.noSale, [GatewayCall.getOptionsContracts symbol])
    else
      let scores := env.score_options call_options
      let contract := call_options.getD (np_argmax scores) { symbol := "", strike := 0 }
      (SellCallsResult.sold contract,
       [GatewayCall.getOptionsContracts symbol, GatewayCall.marketSell contract.symbol])

/-- Total capital cost of a list of put contracts: 100 times the strike
of each (execution.py line 35). -/
def total_cost (l : List Contract) : ℚ :=
  (l.map (fun p => 100 * p.strike)).sum

/-- The first n contracts of the selection stay within the initial
buying-power budget: every nonempty prefix of length at most n has total
cost at most the budget. -/
def within_budget (buying_power : ℚ) (l : List Contract) (n : ℕ) : Prop :=
  ∀ i : ℕ, i < n → total_cost (l.take (i + 1)) ≤ buying_power

instance within_budget_dec (buying_power : ℚ) (l : List Contract) (n : ℕ) :
    Decidable (within_budget buying_power l n) := by
  unfold within_budget
  infer_instance

/-- A sell environment whose affordability filter leaves no underlyings. -/
def trivial_sell_env : SellEnv where
  filter_underlying := fun _ _ => []
  get_options_contracts := fun _ => []
  get_option_snapshot := fun _ _ => none
  from_contract_snapshot := fun c _ => { symbol := c.symbol, strike := 0 }
  filter_options := fun l => l
  score_options := fun l => l.map (fun _ => 0)
  select_options := fun l _ => l

/-- A sell environment with three selectable put contracts of strike 1. -/
def sell_env_example : SellEnv where
  filter_underlying := fun symbols _ => symbols
  get_options_contracts := fun _ => [{ symbol := "P1" }, { symbol := "P2" }, { symbol := "P3" }]
  get_option_snapshot := fun _ _ => some { latest_quote := none, latest_trade := some { price := 1 } }
  from_contract_snapshot := fun c _ => { symbol := c.symbol, strike := 1 }
  filter_options := fun l => l
  score_options := fun l => l.map (fun _ => 0)
  select_options := fun l _ => l

/-- A call environment with three qualifying contracts. -/
def call_env_example : CallEnv where
  get_calls := fun _ =>
    [{ symbol := "C1", strike := 150 },
     { symbol := "C2", strike := 155 },
     { symbol := "C3", strike := 160 }]
  filter_options := fun l _ => l
  score_options := fun l => l.map (fun _ => 1)

/-- A call environment whose scores have a tie for the maximum. -/
def call_env_tie : CallEnv where
  get_calls := fun _ =>
    [{ symbol := "C1", strike := 150 },
     { symbol := "C2", strike := 155 },
     { symbol := "C3", strike := 160 }]
  filter_options := fun l _ => l
  score_options := fun _ => [5, 9, 9]

/-- A monitor environment with one short put at 95 percent profit. -/
def env_example : Env where
  positions :=
    [{ symbol := "AAPL250920P00150000", qty := -1, avg_entry_price := 2,
       asset_class := AssetClass.us_option }]
  parse := fun s => if s = "AAPL250920P00150000" then some ("AAPL", 'P', 150) else none
  stock_prices := Except.ok (fun s => if s = "AAPL" then some { price := 155 } else none)
  option_snapshots := Except.ok (fun s =>
    if s = "AAPL250920P00150000" then
      some { latest_quote := some { bid_price := some (1/10), ask_price := some (1/10) },
             latest_trade := none }
    else none)
  submit_order := fun _ => Except.ok "mock_order_id"

/-- A monitor environment whose bulk stock-price fetch fails. -/
def env_fetch_error : Env where
  positions :=
    [{ symbol := "AAPL250920P00150000", qty := -1, avg_entry_price := 2,
       asset_class := AssetClass.us_option }]
  parse := fun _ => some ("AAPL", 'P', 150)
  stock_prices := Except.error ()
  option_snapshots := Except.ok (fun _ => none)
  submit_order := fun _ => Except.ok "mock_order_id"

/-- C1 counterexample: for a snapshot whose quote has neither a usable
bid nor a usable ask but which has a latest trade at price 7, the claim
says the trade price 7 is used; the code resolves the price to ask or 0,
namely 0, and never consults the trade. -/
theorem C1_counterexample :
    resolve_option_price
      { latest_quote := some { bid_price := none, ask_price := none },
        latest_trade := some { price := 7 } } = some 0 ∧
    resolve_option_price
      { latest_quote := some { bid_price := none, ask_price := none },
        latest_trade := some { price := 7 } } ≠ some 7 := by
  constructor
  · norm_num [resolve_option_price, truthy, or_zero]
  · norm_num [resolve_option_price, truthy, or_zero]

/-- C1 (amended): the current option price is resolved as (a) the mid of
bid and ask when a quote exists and both are present and non-zero;
(b) the ask price or 0 whenever a quote exists otherwise — the latest
trade is never consulted when a quote object exists; (c) the latest
trade price when no quote exists; (d) no price when there is neither
quote nor trade, in which case the position is skipped and never
closed. -/
theorem C1_price_precedence (snap : OptionSnapshot) :
    (∀ q : LatestQuote, snap.latest_quote = some q →
      truthy q.bid_price = true → truthy q.ask_price = true →
      resolve_option_price snap = some ((or_zero q.bid_price + or_zero q.ask_price) / 2)) ∧
    (∀ q : LatestQuote, snap.latest_quote = some q →
      ¬(truthy q.bid_price = true ∧ truthy q.ask_price = true) →
      resolve_option_price snap = some (or_zero q.ask_price)) ∧
    (snap.latest_quote = none → ∀ t : LatestTrade, snap.latest_trade = some t →
      resolve_option_price snap = some t.price) ∧
    (snap.latest_quote = none → snap.latest_trade = none →
      resolve_option_price snap = none) ∧
    (∀ (stock_prices : String → Option StockTrade)
       (option_snapshots : String → Option OptionSnapshot)
       (target_pct : ℚ) (option_symbol : String) (d : PutDetail),
      option_snapshots option_symbol = some snap →
      resolve_option_price snap = none →
      evaluate_position stock_prices option_snapshots target_pct option_symbol d = none) := by
  refine ⟨?_, ?_, ?_, ?_, ?_⟩
  · intro q hq hb ha
    simp [resolve_option_price, hq, hb, ha]
  · intro q hq hna
    simp only [resolve_option_price, hq]
    rw [if_neg]
    simpa [Bool.and_eq_true] using hna
  · intro hq t ht
    simp [resolve_option_price, hq, ht]
  · intro hq ht
    simp [resolve_option_price, hq, ht]
  · intro stock_prices option_snapshots target_pct option_symbol d hsnap hres
    unfold evaluate_position
    cases hsp : stock_prices d.underlying with
    | none => rfl
    | some st => simp [hsnap, hres]

/-- Witness for C1: the amended theorem applied to the quote bid=9,
ask=11 yields the mid price 10. -/
theorem C1_price_precedence_witness :
    resolve_option_price
      { latest_quote := some { bid_price := some 9, ask_price := some 11 },
        latest_trade := none } = some 10 := by
  have h := (C1_price_precedence
      { latest_quote := some { bid_price := some 9, ask_price := some 11 },
        latest_trade := none }).1
    { bid_price := some 9, ask_price := some 11 } rfl
    (by norm_num [truthy]) (by norm_num [truthy])
  rw [h]
  norm_num [or_zero]

/-- C2: for every evaluated position (one whose stock price, snapshot
and option price all resolve) and every target_pct in (0,1], the
position is selected for closure iff the absolute P&L percentage is at
least target_pct (the boundary counts as closed), with reason
profit_target iff the percentage is at least target_pct and reason
loss_limit iff it is at most minus target_pct. -/
theorem C2_closure_threshold (stock_prices : String → Option StockTrade)
    (option_snapshots : String → Option OptionSnapshot)
    (target_pct : ℚ) (option_symbol : String) (d : PutDetail)
    (h1 : 0 < target_pct) (_h2 : target_pct ≤ 1)
    (st : StockTrade) (hs : stock_prices d.underlying = some st)
    (snap : OptionSnapshot) (hsnap : option_snapshots option_symbol = some snap)
    (price : ℚ) (hp : resolve_option_price snap = some price) :
    ((evaluate_position stock_prices option_snapshots target_pct option_symbol d).isSome =
        true ↔ |pnl_pct_of d.avg_entry_price price| ≥ target_pct) ∧
    (evaluate_position stock_prices option_snapshots target_pct option_symbol d =
        some (Reason.profit_target, d.avg_entry_price - price) ↔
      pnl_pct_of d.avg_entry_price price ≥ target_pct) ∧
    (evaluate_position stock_prices option_snapshots target_pct option_symbol d =
        some (Reason.loss_limit, d.avg_entry_price - price) ↔
      pnl_pct_of d.avg_entry_price price ≤ -target_pct) := by
  have hev : evaluate_position stock_prices option_snapshots target_pct option_symbol d =
      match closure_decision target_pct (pnl_pct_of d.avg_entry_price price) with
      | some reason => some (reason, d.avg_entry_price - price)
      | none => none := by
    simp [evaluate_position, hs, hsnap, hp]
  set p := pnl_pct_of d.avg_entry_price price with hpdef
  rw [hev]
  unfold closure_decision
  by_cases habs : |p| ≥ target_pct
  · rw [if_pos habs]
    by_cases hge : p ≥ target_pct
    · rw [if_pos hge]
      refine ⟨by simpa using habs, by simpa using hge, ?_⟩
      constructor
      · intro hcon
        simp at hcon
      · intro hle
        exfalso
        linarith
    · rw [if_neg hge]
      have hle : p ≤ -target_pct := by
        rcases le_abs.mp habs with h | h
        · exact absurd h hge
        · linarith
      refine ⟨by simpa using habs, ?_, by simpa using hle⟩
      constructor
      · intro hcon
        simp at hcon
      · intro hget
        exact absurd hget hge
  · rw [if_neg habs]
    refine ⟨by simpa using habs, ?_, ?_⟩
    · constructor
      · intro hcon
        simp at hcon
      · intro hget
        exact absurd (le_trans hget (le_abs_self p)) habs
    · constructor
      · intro hcon
        simp at hcon
      · intro hle
        exact absurd (le_abs.mpr (Or.inr (by linarith))) habs

/-- Witness for C2: a position with premium 2 and resolved mid price
1/10 has P&L percentage 95 percent and is closed as profit_target with
unrealized P&L 19/10 at target_pct = 9/10. -/
theorem C2_closure_threshold_witness :
    evaluate_position (fun _ => some { price := 155 })
      (fun _ => some { latest_quote := some { bid_price := some (1/10), ask_price := some (1/10) },
                       latest_trade := none })
      (9/10) "AAPL250920P00150000"
      { underlying := "AAPL", strike := 150, qty := 1, avg_entry_price := 2,
        symbol := "AAPL250920P00150000" } =
      some (Reason.profit_target, 2 - 1/10) := by
  have h := (C2_closure_threshold (fun _ => some { price := 155 })
      (fun _ => some { latest_quote := some { bid_price := some (1/10), ask_price := some (1/10) },
                       latest_trade := none })
      (9/10) "AAPL250920P00150000"
      { underlying := "AAPL", strike := 150, qty := 1, avg_entry_price := 2,
        symbol := "AAPL250920P00150000" }
      (by norm_num) (by norm_num)
      { price := 155 } rfl
      { latest_quote := some { bid_price := some (1/10), ask_price := some (1/10) },
        latest_trade := none } rfl
      (1/10) (by norm_num [resolve_option_price, truthy, or_zero])).2.1
  exact h.mpr (by norm_num [pnl_pct_of])

/-- C6: a position whose collected premium is 0 has P&L percentage 0 for
every current option price (the division is guarded) and is never
selected for closure for any target_pct in (0,1]. -/
theorem C6_zero_premium (stock_prices : String → Option StockTrade)
    (option_snapshots : String → Option OptionSnapshot)
    (target_pct : ℚ) (option_symbol : String) (d : PutDetail)
    (hprem : d.avg_entry_price = 0)
    (h1 : 0 < target_pct) (_h2 : target_pct ≤ 1) :
    (∀ price : ℚ, pnl_pct_of d.avg_entry_price price = 0) ∧
    evaluate_position stock_prices option_snapshots target_pct option_symbol d = none := by
  constructor
  · intro price
    simp [pnl_pct_of, hprem]
  · unfold evaluate_position
    split
    · rfl
    split
    · rfl
    split
    · rfl
    simp only [closure_decision, pnl_pct_of, hprem]
    rw [if_neg (lt_irrefl (0 : ℚ))]
    rw [if_neg (by simpa using not_le.mpr h1)]

/-- Witness for C6: a zero-premium position is not closed even with the
option price resolved at 7 (P&L percentage 0). -/
theorem C6_zero_premium_witness :
    pnl_pct_of 0 7 = 0 ∧
    evaluate_position (fun _ => some { price := 155 })
      (fun _ => some { latest_quote := none, latest_trade := some { price := 7 } })
      (9/10) "AAPL250920P00150000"
      { underlying := "AAPL", strike := 150, qty := 1, avg_entry_price := 0,
        symbol := "AAPL250920P00150000" } = none := by
  have h := C6_zero_premium (fun _ => some { price := 155 })
      (fun _ => some { latest_quote := none, latest_trade := some { price := 7 } })
      (9/10) "AAPL250920P00150000"
      { underlying := "AAPL", strike := 150, qty := 1, avg_entry_price := 0,
        symbol := "AAPL250920P00150000" }
      rfl (by norm_num) (by norm_num)
  exact ⟨h.1 7, h.2⟩

/-- C3: manage_open_puts returns none exactly when there is nothing to
evaluate (no short option positions, no position surviving symbol
parsing, or a failed batch fetch); otherwise it returns the list of
successfully closed records, which is empty when the evaluation selected
nothing; and the return value is always one of none, the empty list, or
a non-empty list — three mutually exclusive, exhaustive outcomes. -/
theorem C3_return_trichotomy (env : Env) (target_pct : ℚ) :
    ((manage_open_puts env target_pct).1 = none ↔
      (short_option_positions env.positions).isEmpty = true ∨
      (build_put_details env.parse (short_option_positions env.positions)).1.isEmpty = true ∨
      env.stock_prices = Except.error () ∨
      env.option_snapshots = Except.error ()) ∧
    (∀ (stock_prices : String → Option StockTrade)
       (option_snapshots : String → Option OptionSnapshot),
      env.stock_prices = Except.ok stock_prices →
      env.option_snapshots = Except.ok option_snapshots →
      (short_option_positions env.positions).isEmpty = false →
      (build_put_details env.parse (short_option_positions env.positions)).1.isEmpty = false →
      (manage_open_puts env target_pct).1 =
        some (close_positions env.submit_order
          (decide_closures stock_prices option_snapshots target_pct
            (build_put_details env.parse (short_option_positions env.positions)).2)).1) ∧
    ((manage_open_puts env target_pct).1 = none ∨
     (manage_open_puts env target_pct).1 = some [] ∨
     ∃ r rs, (manage_open_puts env target_pct).1 = some (r :: rs)) := by
  by_cases h1 : (short_option_positions env.positions).isEmpty
  · refine ⟨by simp [manage_open_puts, h1], ?_, by simp [manage_open_puts, h1]⟩
    intro sp os _ _ hne _
    rw [h1] at hne
    cases hne
  · by_cases h2 : (build_put_details env.parse (short_option_positions env.positions)).1.isEmpty
    · refine ⟨by simp [manage_open_puts, h1, h2], ?_, by simp [manage_open_puts, h1, h2]⟩
      intro sp os _ _ _ hne
      rw [h2] at hne
      cases hne
    · cases hsp : env.stock_prices with
      | error e =>
        cases e
        refine ⟨by simp [manage_open_puts, h1, h2, hsp], ?_,
          by simp [manage_open_puts, h1, h2, hsp]⟩
        intro sp os hok _ _ _
        simp at hok
      | ok stock_prices =>
        cases hos : env.option_snapshots with
        | error e =>
          cases e
          refine ⟨by simp [manage_open_puts, h1, h2, hsp, hos], ?_,
            by simp [manage_open_puts, h1, h2, hsp, hos]⟩
          intro sp os _ hok _ _
          simp at hok
        | ok option_snapshots =>
          have hval : (manage_open_puts env target_pct).1 =
              some (close_positions env.submit_order
                (decide_closures stock_prices option_snapshots target_pct
                  (build_put_details env.parse (short_option_positions env.positions)).2)).1 := by
            simp [manage_open_puts, h1, h2, hsp, hos]
          refine ⟨?_, ?_, ?_⟩
          · rw [hval]
            simp only [Bool.not_eq_true] at h1 h2
            simp [h1, h2, hsp, hos]
          · intro sp os hok1 hok2 _ _
            injection hok1 with hfn1
            injection hok2 with hfn2
            rw [hval, hfn1, hfn2]
          · rw [hval]
            cases (close_positions env.submit_order
                (decide_closures stock_prices option_snapshots target_pct
                  (build_put_details env.parse (short_option_positions env.positions)).2)).1 with
            | nil => simp
            | cons r rs => exact Or.inr (Or.inr ⟨r, rs, rfl⟩)

/-- Witness for C3: in the example environment (one short put at 95
percent profit, all fetches succeeding) the function returns the
closed-record list produced by the closing loop. -/
theorem C3_return_trichotomy_witness :
    (manage_open_puts env_example (9/10)).1 =
      some (close_positions env_example.submit_order
        (decide_closures (fun s => if s = "AAPL" then some { price := 155 } else none)
          (fun s =>
            if s = "AAPL250920P00150000" then
              some { latest_quote := some { bid_price := some (1/10), ask_price := some (1/10) },
                     latest_trade := none }
            else none)
          (9/10)
          (build_put_details env_example.parse (short_option_positions env_example.positions)).2)).1 :=
  (C3_return_trichotomy env_example (9/10)).2.1
    (fun s => if s = "AAPL" then some { price := 155 } else none)
    (fun s =>
      if s = "AAPL250920P00150000" then
        some { latest_quote := some { bid_price := some (1/10), ask_price := some (1/10) },
               latest_trade := none }
      else none)
    rfl rfl (by decide) (by decide)

/-- C7: if either the bulk stock-price fetch or the bulk option-snapshot
fetch fails, manage_open_puts returns none and attempts no closing order
submission. -/
theorem C7_fetch_failure_aborts (env : Env) (target_pct : ℚ)
    (h : env.stock_prices = Except.error () ∨ env.option_snapshots = Except.error ()) :
    manage_open_puts env target_pct = (none, []) := by
  unfold manage_open_puts
  by_cases h1 : (short_option_positions env.positions).isEmpty
  · simp [h1]
  · by_cases h2 : (build_put_details env.parse (short_option_positions env.positions)).1.isEmpty
    · simp [h1, h2]
    · rcases h with h | h
      · simp [h1, h2, h]
      · cases hsp : env.stock_prices with
        | error e => simp [h1, h2, hsp]
        | ok stock_prices => simp [h1, h2, hsp, h]

/-- Witness for C7: the environment whose stock-price fetch fails yields
the nothing-happened result with no submissions. -/
theorem C7_fetch_failure_aborts_witness :
    manage_open_puts env_fetch_error (9/10) = (none, []) :=
  C7_fetch_failure_aborts env_fetch_error (9/10) (Or.inl rfl)

/-- C8: in the closing loop, every decision's order is submitted in
order regardless of other submissions failing, and the returned records
are exactly those of the successful submissions, each carrying the
broker-assigned order id; a failed submission drops only its own
record. -/
theorem C8_submission_isolation (submit : MarketOrder → Except Unit String)
    (decisions : List (PutDetail × Reason × ℚ)) :
    (close_positions submit decisions).2 = decisions.map (fun x => order_of x.1) ∧
    (close_positions submit decisions).1 = decisions.filterMap
      (fun x =>
        match submit (order_of x.1) with
        | Except.ok order_id => some (record_of x.1 x.2.1 x.2.2 order_id)
        | Except.error _ => none) := by
  induction decisions with
  | nil => exact ⟨rfl, rfl⟩
  | cons head rest ih =>
    obtain ⟨d, reason, pnl⟩ := head
    constructor
    · simp only [close_positions, List.map_cons]
      cases submit (order_of d) <;> simp [ih.1]
    · simp only [close_positions, List.filterMap_cons]
      cases submit (order_of d) <;> simp [ih.2]

/-- C4 (code evaluated at the failing input): with a non-empty
allowed-symbol list, positive buying power and no strategy logger,
sell_puts raises an AttributeError at the unguarded
strat_logger.set_filtered_symbols call even though the affordability
filter leaves no underlyings; with a logger supplied it stops without
error as the spec intends. -/
theorem C4_none_logger_raises :
    sell_puts trivial_sell_env ["AAPL"] 1000 none =
      Except.error SellError.attributeErrorNoneLogger ∧
    sell_puts trivial_sell_env ["AAPL"] 1000 (some ()) = Except.ok [] := by
  constructor
  · norm_num [sell_puts, trivial_sell_env]
  · norm_num [sell_puts, trivial_sell_env]

/-- C9: sell_calls with fewer than 100 shares fails with the
insufficient-shares error before any gateway call is made (the gateway
call list is empty); with at least 100 shares that error is never
raised. -/
theorem C9_insufficient_shares (env : CallEnv) (symbol : String)
    (purchase_price : ℚ) (stock_qty : Int) (strat_logger : Option Unit) :
    (stock_qty < 100 →
      sell_calls env symbol purchase_price stock_qty strat_logger =
        (SellCallsResult.insufficientShares, [])) ∧
    (100 ≤ stock_qty →
      (sell_calls env symbol purchase_price stock_qty strat_logger).1 ≠
        SellCallsResult.insufficientShares) := by
  constructor
  · intro h
    simp [sell_calls, h]
  · intro h
    have hn : ¬ stock_qty < 100 := not_lt.mpr h
    simp only [sell_calls, if_neg hn]
    by_cases hc : env.filter_options (env.get_calls symbol) purchase_price = []
    · simp [hc]
    · simp [hc]

/-- Witness for C9: with 50 shares the insufficient-shares error is
raised with no gateway calls; with 200 shares it is not raised. -/
theorem C9_insufficient_shares_witness :
    sell_calls call_env_example "AAPL" 150 50 none =
      (SellCallsResult.insufficientShares, []) ∧
    (sell_calls call_env_example "AAPL" 150 200 none).1 ≠
      SellCallsResult.insufficientShares :=
  ⟨(C9_insufficient_shares call_env_example "AAPL" 150 50 none).1 (by norm_num),
   (C9_insufficient_shares call_env_example "AAPL" 150 200 none).2 (by norm_num)⟩

/-- Splitting the total cost of a one-longer prefix at the head. -/
lemma total_cost_take_cons (p : Contract) (rest : List Contract) (i : ℕ) :
    total_cost ((p :: rest).take (i + 1)) = 100 * p.strike + total_cost (rest.take i) := by
  simp [total_cost, List.take_succ_cons]

/-- C5: the contracts sold by the budget walk of sell_puts form exactly
the maximal prefix of the selection whose cumulative 100-times-strike
cost stays within the initial buying power: the walk equals a take of
the selection, that prefix stays within budget, any within-budget prefix
is no longer, and under the sell_puts gates the function returns exactly
this walk over the selected (score-ordered) contracts. -/
theorem C5_budget_walk_max (buying_power : ℚ) (selected : List Contract) :
    budget_walk buying_power selected = selected.take (sold_count buying_power selected) ∧
    within_budget buying_power selected (sold_count buying_power selected) ∧
    (∀ m : ℕ, m ≤ selected.length → within_budget buying_power selected m →
      m ≤ sold_count buying_power selected) ∧
    (∀ (env : SellEnv) (allowed_symbols : List String) (put_options : List Contract),
      allowed_symbols ≠ [] → 0 < buying_power →
      env.filter_underlying allowed_symbols buying_power ≠ [] →
      put_options = env.filter_options
        ((env.get_options_contracts (env.filter_underlying allowed_symbols buying_power)).filterMap
          (fun c => (env.get_option_snapshot
              ((env.get_options_contracts (env.filter_underlying allowed_symbols
                buying_power)).map RawOptionContract.symbol) c.symbol).map
            (env.from_contract_snapshot c))) →
      put_options ≠ [] →
      env.select_options put_options (env.score_options put_options) = selected →
      sell_puts env allowed_symbols buying_power (some ()) =
        Except.ok (budget_walk buying_power selected)) := by
  refine ⟨?_, ?_, ?_, ?_⟩
  · induction selected generalizing buying_power with
    | nil => rfl
    | cons p rest ih =>
      by_cases h : buying_power - 100 * p.strike < 0
      · simp [budget_walk, sold_count, h]
      · simp [budget_walk, sold_count, h, List.take_succ_cons, ih]
  · induction selected generalizing buying_power with
    | nil =>
      intro i hi
      simp [sold_count] at hi
    | cons p rest ih =>
      intro i hi
      by_cases h : buying_power - 100 * p.strike < 0
      · simp [sold_count, h] at hi
      · have h' := not_lt.mp h
        simp only [sold_count, if_neg h] at hi
        rw [total_cost_take_cons]
        cases i with
        | zero =>
          simp [total_cost]
          linarith
        | succ j =>
          have hj := ih (buying_power - 100 * p.strike) j (by omega)
          linarith
  · induction selected generalizing buying_power with
    | nil =>
      intro m hm _
      simp at hm
      simp [sold_count, hm]
    | cons p rest ih =>
      intro m hm hwb
      by_cases h : buying_power - 100 * p.strike < 0
      · rcases Nat.eq_zero_or_pos m with rfl | hmpos
        · exact Nat.zero_le _
        · exfalso
          have h0 := hwb 0 hmpos
          rw [total_cost_take_cons] at h0
          simp [total_cost] at h0
          linarith
      · simp only [sold_count, if_neg h]
        cases m with
        | zero => omega
        | succ m' =>
          have hwb' : within_budget (buying_power - 100 * p.strike) rest m' := by
            intro i hi
            have hstep := hwb (i + 1) (by omega)
            rw [total_cost_take_cons] at hstep
            linarith
          have hm' : m' ≤ rest.length := by simpa using hm
          exact Nat.succ_le_succ (ih (buying_power - 100 * p.strike) m' hm' hwb')
  · intro env allowed_symbols put_options hne hbp hfne hpo hpone hsel
    subst hpo
    have hcond : ¬(allowed_symbols = [] ∨ buying_power ≤ 0) := by
      push_neg
      exact ⟨hne, hbp⟩
    have hlen : ¬((env.filter_underlying allowed_symbols buying_power).length = 0) :=
      fun hl => hfne (List.length_eq_zero.mp hl)
    simp only [sell_puts, if_neg hcond, if_neg hlen, if_neg hpone, hsel]

/-- Witness for C5: with budget 250 and three selected strike-1
contracts (cost 100 each), exactly the first two are sold, and the
within-budget prefix of length 2 is indeed within the bound the theorem
gives. -/
theorem C5_budget_walk_max_witness :
    sell_puts sell_env_example ["AAPL"] 250 (some ()) =
      Except.ok [{ symbol := "P1", strike := 1 }, { symbol := "P2", strike := 1 }] ∧
    2 ≤ sold_count 250
      [{ symbol := "P1", strike := 1 }, { symbol := "P2", strike := 1 },
       { symbol := "P3", strike := 1 }] := by
  constructor
  · have h := (C5_budget_walk_max 250
        [{ symbol := "P1", strike := 1 }, { symbol := "P2", strike := 1 },
         { symbol := "P3", strike := 1 }]).2.2.2 sell_env_example ["AAPL"] _
      (by simp) (by norm_num) (by simp [sell_env_example]) rfl
      (by simp [sell_env_example]) (by simp [sell_env_example])
    rw [h]
    norm_num [budget_walk]
  · refine (C5_budget_walk_max 250
        [{ symbol := "P1", strike := 1 }, { symbol := "P2", strike := 1 },
         { symbol := "P3", strike := 1 }]).2.2.1 2 (by norm_num) ?_
    intro i hi
    interval_cases i <;> norm_num [total_cost]

/-- Unfolding equation of np_argmax on a singleton. -/
lemma np_argmax_singleton (x : ℚ) : np_argmax [x] = 0 := rfl

/-- Unfolding equation of np_argmax on a list of two or more scores. -/
lemma np_argmax_cons_cons (x y : ℚ) (ys : List ℚ) :
    np_argmax (x :: y :: ys) =
      if (y :: ys).getD (np_argmax (y :: ys)) 0 ≤ x then 0
      else np_argmax (y :: ys) + 1 := rfl

/-- np_argmax is in bounds on a non-empty list. -/
lemma np_argmax_lt (l : List ℚ) (h : l ≠ []) : np_argmax l < l.length := by
  induction l with
  | nil => exact absurd rfl h
  | cons x xs ih =>
    cases xs with
    | nil => simp [np_argmax_singleton]
    | cons y ys =>
      rw [np_argmax_cons_cons]
      by_cases hc : (y :: ys).getD (np_argmax (y :: ys)) 0 ≤ x
      · rw [if_pos hc]
        simp
      · rw [if_neg hc]
        have hlt := ih (by simp)
        simp only [List.length_cons] at hlt ⊢
        omega

/-- np_argmax attains the maximum, and every earlier element is strictly
below it: it is the index of the first occurrence of the maximum. -/
lemma np_argmax_spec (l : List ℚ) :
    (∀ i, i < l.length → l.getD i 0 ≤ l.getD (np_argmax l) 0) ∧
    (∀ i, i < np_argmax l → l.getD i 0 < l.getD (np_argmax l) 0) := by
  induction l with
  | nil =>
    constructor
    · intro i hi
      simp at hi
    · intro i hi
      simp [np_argmax] at hi
  | cons x xs ih =>
    cases xs with
    | nil =>
      constructor
      · intro i hi
        have hi0 : i = 0 := by simpa using Nat.lt_one_iff.mp (by simpa using hi)
        subst hi0
        simp [np_argmax_singleton]
      · intro i hi
        rw [np_argmax_singleton] at hi
        simp at hi
    | cons y ys =>
      rw [np_argmax_cons_cons]
      by_cases hc : (y :: ys).getD (np_argmax (y :: ys)) 0 ≤ x
      · simp only [if_pos hc]
        constructor
        · intro i hi
          cases i with
          | zero => simp
          | succ j =>
            simp only [List.getD_cons_succ, List.getD_cons_zero]
            have hj : j < (y :: ys).length := by simpa using hi
            exact le_trans (ih.1 j hj) hc
        · intro i hi
          simp at hi
      · simp only [if_neg hc]
        constructor
        · intro i hi
          cases i with
          | zero =>
            simp only [List.getD_cons_zero, List.getD_cons_succ]
            exact le_of_lt (not_le.mp hc)
          | succ j =>
            simp only [List.getD_cons_succ]
            have hj : j < (y :: ys).length := by simpa using hi
            exact ih.1 j hj
        · intro i hi
          cases i with
          | zero =>
            simp only [List.getD_cons_zero, List.getD_cons_succ]
            exact not_le.mp hc
          | succ j =>
            simp only [List.getD_cons_succ]
            exact ih.2 j (by omega)

/-- C10: when at least one call contract qualifies, sell_calls sells the
contract at index np_argmax of the scores; that index carries the
maximal score and every earlier index carries a strictly smaller score,
so on a tie for the maximum the first tied contract in the filtered
list's order is the one sold, deterministically in input order. -/
theorem C10_argmax_tie_first (env : CallEnv) (symbol : String)
    (purchase_price : ℚ) (stock_qty : Int) (strat_logger : Option Unit)
    (hqty : 100 ≤ stock_qty)
    (hne : env.filter_options (env.get_calls symbol) purchase_price ≠ []) :
    (sell_calls env symbol purchase_price stock_qty strat_logger).1 =
      SellCallsResult.sold
        ((env.filter_options (env.get_calls symbol) purchase_price).getD
          (np_argmax (env.score_options
            (env.filter_options (env.get_calls symbol) purchase_price)))
          { symbol := "", strike := 0 }) ∧
    (∀ i, i < (env.score_options
        (env.filter_options (env.get_calls symbol) purchase_price)).length →
      (env.score_options (env.filter_options (env.get_calls symbol) purchase_price)).getD i 0 ≤
      (env.score_options (env.filter_options (env.get_calls symbol) purchase_price)).getD
        (np_argmax (env.score_options
          (env.filter_options (env.get_calls symbol) purchase_price))) 0) ∧
    (∀ i, i < np_argmax (env.score_options
        (env.filter_options (env.get_calls symbol) purchase_price)) →
      (env.score_options (env.filter_options (env.get_calls symbol) purchase_price)).getD i 0 <
      (env.score_options (env.filter_options (env.get_calls symbol) purchase_price)).getD
        (np_argmax (env.score_options
          (env.filter_options (env.get_calls symbol) purchase_price))) 0) := by
  refine ⟨?_, (np_argmax_spec _).1, (np_argmax_spec _).2⟩
  simp [sell_calls, not_lt.mpr hqty, hne]

/-- Witness for C10: with scores 5, 9, 9 tied at the maximum, the second
contract (the first of the tied pair) is sold. -/
theorem C10_argmax_tie_first_witness :
    (sell_calls call_env_tie "AAPL" 150 200 none).1 =
      SellCallsResult.sold { symbol := "C2", strike := 155 } := by
  have h := (C10_argmax_tie_first call_env_tie "AAPL" 150 200 none (by norm_num)
    (by simp [call_env_tie])).1
  rw [h]
  norm_num [call_env_tie, np_argmax]

end OptionsWheel
